import Mathlib

/-
  Verification development for the milliapp wallet server (`src/app.py`).

  The file shallowly embeds the Flask request handlers of `app.py`:
  Python floats appearing in request bodies are modelled as exact
  rationals, Python ints as integers, fallible operations as `Option` /
  `Except`, and the remote RPC endpoint as an oracle giving the outcome
  of each network call in sequence.  Every handler returns, besides its
  HTTP response, the ordered trace of network operations it attempted.
-/

namespace Milliapp

/-! ### Python string primitives (str.strip, int literals, list literals) -/

def isSpaceChar (c : Char) : Bool :=
  c == ' ' || c == '\t' || c == '\n' || c == '\r'

/-- Model of Python `str.strip()` on the character list of a string. -/
def pyStripList (cs : List Char) : List Char :=
  ((cs.dropWhile isSpaceChar).reverse.dropWhile isSpaceChar).reverse

def digitVal (c : Char) : Option ℕ :=
  if '0' ≤ c ∧ c ≤ '9' then some (c.toNat - '0'.toNat) else none

def parseNatChars (cs : List Char) : Option ℕ :=
  if cs = [] then none
  else cs.foldl (fun acc c => acc.bind (fun n => (digitVal c).map (fun d => n * 10 + d)))
    (some 0)

/-- Model of parsing one (possibly negated) integer literal token. -/
def parseIntTokenChars (cs : List Char) : Option ℤ :=
  match pyStripList cs with
  | '-' :: rest => (parseNatChars rest).map (fun n => -(n : ℤ))
  | t => (parseNatChars t).map (fun n => (n : ℤ))

def splitComma : List Char → List (List Char)
  | [] => [[]]
  | c :: cs =>
    let r := splitComma cs
    if c = ',' then [] :: r
    else
      match r with
      | [] => [[c]]
      | g :: gs => (c :: g) :: gs

/-- Model of `ast.literal_eval` restricted to flat integer-list literals,
the shape `load_keypair_from_env` feeds into `bytes(...)`; any other input
is a parse failure (an exception in the source, caught by its caller). -/
def parseIntArray (s : String) : Option (List ℤ) :=
  match pyStripList s.toList with
  | '[' :: rest =>
    match rest.getLast? with
    | some ']' =>
      let inner := rest.dropLast
      if pyStripList inner = [] then some []
      else (splitComma inner).mapM parseIntTokenChars
    | _ => none
  | _ => none

/-- Model of Python `bytes(arr)`: succeeds only when every element is an
integer in `[0, 256)`; otherwise raises (here: `none`). -/
def pyBytes (l : List ℤ) : Option (List ℕ) :=
  l.mapM (fun i => if 0 ≤ i ∧ i < 256 then some i.toNat else none)

/-! ### base58 -/

def b58Alphabet : List Char :=
  "123456789ABCDEFGHJKLMNPQRSTUVWXYZabcdefghijkmnopqrstuvwxyz".toList

def b58Digit (c : Char) : Option ℕ :=
  b58Alphabet.findIdx? (fun d => d == c)

def b58Value (cs : List Char) : Option ℕ :=
  cs.foldl (fun acc c => acc.bind (fun n => (b58Digit c).map (fun d => n * 58 + d)))
    (some 0)

/-- Big-endian byte expansion of a natural number, fuelled so that it
reduces definitionally (the first argument is sufficient fuel). -/
def natBytesAux : ℕ → ℕ → List ℕ
  | _, 0 => []
  | 0, _ + 1 => []
  | fuel + 1, n + 1 => natBytesAux fuel ((n + 1) / 256) ++ [(n + 1) % 256]

def natBytes (n : ℕ) : List ℕ := natBytesAux n n

def leadingOnes : List Char → ℕ
  | [] => 0
  | c :: cs => if c = '1' then leadingOnes cs + 1 else 0

/-- Model of `base58.b58decode`: fails on any character outside the
alphabet; each leading `1` contributes one leading zero byte. -/
def b58decode (s : String) : Option (List ℕ) :=
  (b58Value s.toList).map
    (fun n => List.replicate (leadingOnes s.toList) 0 ++ natBytes n)

def bytesToNat (bs : List ℕ) : ℕ := bs.foldl (fun a b => a * 256 + b) 0

def natB58Aux : ℕ → ℕ → List Char
  | _, 0 => []
  | 0, _ + 1 => []
  | fuel + 1, n + 1 => natB58Aux fuel ((n + 1) / 58) ++ [b58Alphabet.getD ((n + 1) % 58) '1']

def natB58 (n : ℕ) : List Char := natB58Aux n n

def leadingZeroBytes : List ℕ → ℕ
  | [] => 0
  | b :: bs => if b = 0 then leadingZeroBytes bs + 1 else 0

def b58encode (bs : List ℕ) : String :=
  String.mk (List.replicate (leadingZeroBytes bs) '1' ++ natB58 (bytesToNat bs))

/-! ### SDK boundary: public keys, keypairs, associated token accounts -/

abbrev Pubkey := List ℕ

/-- Modelled from the spec (§3, Account Reference): the SDK address
constructor `PublicKey(s)` accepts a string iff it base58-decodes to the
fixed 32-byte identifier format, and raises otherwise. -/
def publicKey? (s : String) : Option Pubkey :=
  match b58decode s with
  | some bs => if bs.length = 32 then some bs else none
  | none => none

structure Keypair where
  secretKey : List ℕ
deriving DecidableEq, Repr

/-- Modelled from the spec (§4.1): the 64-byte signing-key format carries
the public counterpart in its second half, from which it is derivable. -/
def Keypair.public_key (k : Keypair) : Pubkey := k.secretKey.drop 32

/-- Modelled from the spec (§4.1): identity construction fails unless the
byte length matches the 64-byte signing-key format. -/
def Keypair.from_secret_key (bs : List ℕ) : Option Keypair :=
  if bs.length = 64 then some ⟨bs⟩ else none

/-- Modelled from the spec (§3, ATA): derivation of the associated token
account is a pure, deterministic, injective function of (owner, mint). -/
def get_associated_token_address (owner mint : Pubkey) : Pubkey := owner ++ mint

/-! ### Key Loader (`load_keypair_from_env`, app.py lines 33-54) -/

/-- Test `PRIVATE_KEY_B58.strip().startswith("[")` from app.py line 44. -/
def startsWithBracket (s : String) : Bool :=
  match pyStripList s.toList with
  | '[' :: _ => true
  | _ => false

/-- Embedding of `load_keypair_from_env` (app.py lines 33-54).  Every
exception of the source body is caught by its `except` clause and turned
into `None`; here each fallible step returns `none` directly, so the
function is total and never propagates a failure. -/
def load_keypair_from_env (PRIVATE_KEY_B58 : Option String) : Option Keypair :=
  match PRIVATE_KEY_B58 with
  | none => none
  | some s =>
    if startsWithBracket s then
      match parseIntArray s with
      | none => none
      | some arr =>
        match pyBytes arr with
        | none => none
        | some sk => Keypair.from_secret_key sk
    else
      match b58decode s with
      | none => none
      | some sk => Keypair.from_secret_key sk

/-! ### HTTP and network model -/

/-- JSON scalar appearing in the numeric request fields: either `null` or
a number (Python floats are modelled as exact rationals). -/
inductive Jv
  | null
  | num (q : ℚ)
deriving DecidableEq, Repr

/-- Model of Python `float(x)` on a JSON field value: numbers coerce,
`None` raises (`none`). -/
def pyFloat : Jv → Option ℚ
  | Jv.null => none
  | Jv.num q => some q

/-- Truncation toward zero, the behaviour of Python `int()` on a float. -/
def ratTrunc (q : ℚ) : ℤ := if 0 ≤ q then ⌊q⌋ else ⌈q⌉

/-- Model of Python `int(x)` on a JSON field value. -/
def pyIntOfJv : Jv → Option ℤ
  | Jv.null => none
  | Jv.num q => some (ratTrunc q)

/-- Truthiness test `not x` on an optional string field (`None` and the
empty string are falsy). -/
def strFalsy : Option String → Bool
  | none => true
  | some s => s == ""

/-- Transaction instructions appearing in this app. -/
inductive Instr
  | createAssociatedTokenAccount (payer owner mint : Pubkey)
  | systemTransfer (from_pubkey to_pubkey : Pubkey) (lamports : ℤ)
deriving DecidableEq, Repr

/-- One network operation attempted against the RPC endpoint.
`submitTxn` is `client.send_transaction`; `submitTokenTransfer` is
`token_client.transfer`, which signs and sends its own transaction. -/
inductive NetOp
  | getBalance (addr : Pubkey)
  | getAccountInfo (addr : Pubkey)
  | submitTxn (txn : List Instr)
  | submitTokenTransfer (source dest owner : Pubkey) (amount : ℤ)
deriving DecidableEq, Repr

def isSubmission : NetOp → Bool
  | NetOp.submitTxn _ => true
  | NetOp.submitTokenTransfer _ _ _ _ => true
  | _ => false

def isTransferSubmission : NetOp → Bool
  | NetOp.submitTokenTransfer _ _ _ _ => true
  | _ => false

def isCreateSubmission : NetOp → Bool
  | NetOp.submitTxn txn =>
    txn.any (fun i =>
      match i with
      | Instr.createAssociatedTokenAccount _ _ _ => true
      | _ => false)
  | _ => false

/-- Outcomes of the remote endpoint, indexed by the position of the call
in the handler's call sequence.  `acct` answers `get_account_info`
(`Except.ok none` meaning the account does not exist), `tx` answers the
transaction submissions with a transaction id, `bal` answers
`get_balance` with a lamport amount; `Except.error` is an RPC exception. -/
structure Oracle where
  acct : ℕ → Except String (Option Unit)
  tx : ℕ → Except String String
  bal : ℕ → Except String ℤ

/-- Response bodies produced by the app (plus the framework's default
error page for exceptions that escape a handler). -/
inductive Body
  | errorJson (msg : String)
  | txidJson (id : String)
  | balanceJson (balance_sol : ℚ) (lamports : ℤ)
  | statusJson (rpc : String)
  | htmlErrorPage
deriving DecidableEq, Repr

structure Resp where
  status : ℕ
  body : Body
deriving DecidableEq, Repr

/-- A handler yields either a response or an exception that escapes it,
together with the trace of attempted network operations. -/
abbrev HandlerOut := Except String Resp × List NetOp

/-- The framework turns an exception escaping a handler into a default
500 page whose body is not of the `{error: msg}` form. -/
def flaskDispatch : Except String Resp → Resp
  | Except.ok r => r
  | Except.error _ => ⟨500, Body.htmlErrorPage⟩

def flaskRun (x : HandlerOut) : Resp × List NetOp :=
  (flaskDispatch x.1, x.2)

/-! ### Handlers -/

/-- Resolution `request.args.get("pub") or (str(SIGNER_PUBKEY) if
SIGNER_PUBKEY else None)` from app.py line 71. -/
def resolvePub (SIGNER_PUBKEY : Option Pubkey) (qpub : Option String) : Option String :=
  match qpub with
  | some s => if s == "" then SIGNER_PUBKEY.map (fun pk => b58encode pk) else some s
  | none => SIGNER_PUBKEY.map (fun pk => b58encode pk)

/-- Embedding of `get_balance` (app.py lines 66-80); `qpub` is the `pub`
query parameter. -/
def get_balance (SIGNER_PUBKEY : Option Pubkey) (o : Oracle) (qpub : Option String) :
    HandlerOut :=
  match resolvePub SIGNER_PUBKEY qpub with
  | none => (Except.ok ⟨400, Body.errorJson "No public key provided"⟩, [])
  | some p =>
    match publicKey? p with
    | none => (Except.ok ⟨500, Body.errorJson "invalid public key input"⟩, [])
    | some pk =>
      match o.bal 0 with
      | Except.error m => (Except.ok ⟨500, Body.errorJson m⟩, [NetOp.getBalance pk])
      | Except.ok lamports =>
        (Except.ok ⟨200, Body.balanceJson ((lamports : ℚ) / 1000000000) lamports⟩,
          [NetOp.getBalance pk])

structure SolReq where
  «to» : Option String
  amount_sol : Option Jv
deriving Repr

/-- Lamport conversion `int(amount * 1_000_000_000)` (app.py line 98). -/
def lamportsOfAmount (amount : ℚ) : ℤ := ratTrunc (amount * 1000000000)

/-- Embedding of `send_sol` (app.py lines 82-112). -/
def send_sol (SIGNER : Option Keypair) (o : Oracle) (data : SolReq) : HandlerOut :=
  match SIGNER with
  | none => (Except.ok ⟨500, Body.errorJson "Server signer not configured"⟩, [])
  | some signer =>
    match pyFloat (data.amount_sol.getD (Jv.num 0)) with
    | none => (Except.error "float() argument must be a number", [])
    | some amount =>
      if strFalsy data.to = true ∨ amount ≤ 0 then
        (Except.ok ⟨400, Body.errorJson "invalid params"⟩, [])
      else
        match publicKey? (data.to.getD "") with
        | none => (Except.ok ⟨500, Body.errorJson "invalid public key input"⟩, [])
        | some to_pub =>
          let txn := [Instr.systemTransfer signer.public_key to_pub (lamportsOfAmount amount)]
          match o.tx 0 with
          | Except.error m => (Except.ok ⟨500, Body.errorJson m⟩, [NetOp.submitTxn txn])
          | Except.ok id => (Except.ok ⟨200, Body.txidJson id⟩, [NetOp.submitTxn txn])

structure TokenReq where
  «to» : Option String
  mint : Option String
  amount : Option Jv
  decimals : Option Jv
deriving Repr

/-- Smallest-unit conversion `int(amount * (10 ** decimals))`
(app.py line 163). -/
def uiAmount (amount : ℚ) (decimals : ℤ) : ℤ :=
  ratTrunc (amount * (10 : ℚ) ^ decimals)

/-- Embedding of `send_token` (app.py lines 114-191), line by line: the
signer guard (128), field extraction and numeric coercion (131-135, the
coercions sit outside the `try` and may raise past the handler),
validation (137), address parsing (141-142), ATA derivation (146-147),
the `get_account_info` probe (150), the conditional create-ATA
transaction (151-160), the first `token_client.transfer` call (166,
which signs and sends), the conditional `send_transaction` of the
create-ATA transaction (180), and the second `token_client.transfer`
call (183) whose result becomes the returned txid (189). -/
def send_token (SIGNER : Option Keypair) (o : Oracle) (data : TokenReq) : HandlerOut :=
  match SIGNER with
  | none => (Except.ok ⟨500, Body.errorJson "Server signer not configured"⟩, [])
  | some signer =>
    match pyFloat (data.amount.getD (Jv.num 0)) with
    | none => (Except.error "float() argument must be a number", [])
    | some amount =>
      match pyIntOfJv (data.decimals.getD (Jv.num 0)) with
      | none => (Except.error "int() argument must be a number", [])
      | some decimals =>
        if strFalsy data.to = true ∨ strFalsy data.mint = true ∨ amount ≤ 0 then
          (Except.ok ⟨400, Body.errorJson "invalid params"⟩, [])
        else
          match publicKey? (data.mint.getD "") with
          | none => (Except.ok ⟨500, Body.errorJson "invalid public key input"⟩, [])
          | some mint_pub =>
            match publicKey? (data.to.getD "") with
            | none => (Except.ok ⟨500, Body.errorJson "invalid public key input"⟩, [])
            | some to_pub =>
              let sender_ata := get_associated_token_address signer.public_key mint_pub
              let recipient_ata := get_associated_token_address to_pub mint_pub
              let tr0 := [NetOp.getAccountInfo recipient_ata]
              match o.acct 0 with
              | Except.error m => (Except.ok ⟨500, Body.errorJson m⟩, tr0)
              | Except.ok v =>
                let txn : List Instr :=
                  if v = none then
                    [Instr.createAssociatedTokenAccount signer.public_key to_pub mint_pub]
                  else []
                let ui_amount := uiAmount amount decimals
                let tr1 := tr0 ++
                  [NetOp.submitTokenTransfer sender_ata recipient_ata signer.public_key ui_amount]
                match o.tx 1 with
                | Except.error m => (Except.ok ⟨500, Body.errorJson m⟩, tr1)
                | Except.ok _transfer_ix =>
                  if v = none then
                    let tr2 := tr1 ++ [NetOp.submitTxn txn]
                    match o.tx 2 with
                    | Except.error m => (Except.ok ⟨500, Body.errorJson m⟩, tr2)
                    | Except.ok _create_resp =>
                      let tr3 := tr2 ++
                        [NetOp.submitTokenTransfer sender_ata recipient_ata
                          signer.public_key ui_amount]
                      match o.tx 3 with
                      | Except.error m => (Except.ok ⟨500, Body.errorJson m⟩, tr3)
                      | Except.ok id => (Except.ok ⟨200, Body.txidJson id⟩, tr3)
                  else
                    let tr2 := tr1 ++
                      [NetOp.submitTokenTransfer sender_ata recipient_ata
                        signer.public_key ui_amount]
                    match o.tx 2 with
                    | Except.error m => (Except.ok ⟨500, Body.errorJson m⟩, tr2)
                    | Except.ok id => (Except.ok ⟨200, Body.txidJson id⟩, tr2)

/-- Embedding of `health` (app.py lines 193-195). -/
def health (RPC_URL : String) : Resp := ⟨200, Body.statusJson RPC_URL⟩

/-! ### Concrete fixtures -/

/-- The system-program address: 32 ones decode to 32 zero bytes. -/
def ones32 : String := "11111111111111111111111111111111"

def zero32 : Pubkey := List.replicate 32 0

def kp0 : Keypair := ⟨List.replicate 64 0⟩

/-- Endpoint behaviour where the probed account is absent and every
submission succeeds, answering with its call index as the txid. -/
def oracleAbsent : Oracle :=
  ⟨fun _ => Except.ok none, fun n => Except.ok (toString n), fun _ => Except.ok 0⟩

/-- Endpoint behaviour where the probed account exists and every
submission succeeds. -/
def oraclePresent : Oracle :=
  ⟨fun _ => Except.ok (some ()), fun n => Except.ok (toString n), fun _ => Except.ok 0⟩

/-- Endpoint behaviour for balance queries: 2.5 SOL in lamports. -/
def oracleBal : Oracle :=
  ⟨fun _ => Except.ok none, fun n => Except.ok (toString n), fun _ => Except.ok 2500000000⟩

/-- A base58 string decoding to the 64-byte all-zero secret key. -/
def ones64 : String := String.mk (List.replicate 64 '1')

/-- Test for the `{error: msg}` body form. -/
def isErrorJsonBody : Body → Bool
  | Body.errorJson _ => true
  | _ => false

/-- The response discipline the spec describes: 200 with a success body,
or 400/500 with an `{error: msg}` body. -/
def apiShape (r : Resp) : Prop :=
  (r.status = 200 ∧ ((∃ id, r.body = Body.txidJson id)
      ∨ (∃ q n, r.body = Body.balanceJson q n)
      ∨ (∃ u, r.body = Body.statusJson u)))
  ∨ ((r.status = 400 ∨ r.status = 500) ∧ ∃ m, r.body = Body.errorJson m)

/-! ### Basic facts about the embedding -/

theorem publicKey?_empty : publicKey? "" = none := by decide

theorem ratTrunc_eq_floor (q : ℚ) (h : 0 ≤ q) : ratTrunc q = ⌊q⌋ := if_pos h

theorem uiAmount_eq_floor (a : ℚ) (d : ℤ) (ha : 0 ≤ a) :
    uiAmount a d = ⌊a * (10 : ℚ) ^ d⌋ := by
  unfold uiAmount
  exact ratTrunc_eq_floor _ (mul_nonneg ha (le_of_lt (zpow_pos (by norm_num) d)))

theorem strFalsy_of_ne (s : String) (h : s ≠ "") : strFalsy (some s) = false := by
  simp [strFalsy, h]

theorem publicKey?_ne_empty {s : String} {pk : Pubkey} (h : publicKey? s = some pk) :
    s ≠ "" := by
  intro he
  rw [he, publicKey?_empty] at h
  exact Option.noConfusion h

/-- Characterisation of a `send_token` run that passes validation, parses
both addresses, and whose network calls all succeed: four network calls
and the three-submission trace when the recipient ATA is absent, three
network calls and the two-submission trace when it is present. -/
theorem send_token_run
    (kp : Keypair) (o : Oracle) («to» mint : String) (a dq : ℚ)
    (tp mp : Pubkey) (v : Option Unit) (id1 id2 id3 : String)
    (hmint : publicKey? mint = some mp) (hto : publicKey? «to» = some tp)
    (ha : 0 < a)
    (hacct : o.acct 0 = Except.ok v)
    (h1 : o.tx 1 = Except.ok id1) (h2 : o.tx 2 = Except.ok id2)
    (h3 : o.tx 3 = Except.ok id3) :
    send_token (some kp) o ⟨some «to», some mint, some (Jv.num a), some (Jv.num dq)⟩ =
      (Except.ok ⟨200, Body.txidJson (if v = none then id3 else id2)⟩,
        [NetOp.getAccountInfo (get_associated_token_address tp mp),
         NetOp.submitTokenTransfer (get_associated_token_address kp.public_key mp)
           (get_associated_token_address tp mp) kp.public_key (uiAmount a (ratTrunc dq))] ++
        (if v = none then
          [NetOp.submitTxn [Instr.createAssociatedTokenAccount kp.public_key tp mp],
           NetOp.submitTokenTransfer (get_associated_token_address kp.public_key mp)
             (get_associated_token_address tp mp) kp.public_key (uiAmount a (ratTrunc dq))]
         else
          [NetOp.submitTokenTransfer (get_associated_token_address kp.public_key mp)
            (get_associated_token_address tp mp) kp.public_key (uiAmount a (ratTrunc dq))])) := by
  have hfalsy :
      ¬ (strFalsy (some «to») = true ∨ strFalsy (some mint) = true ∨ a ≤ 0) := by
    rw [strFalsy_of_ne _ (publicKey?_ne_empty hto),
      strFalsy_of_ne _ (publicKey?_ne_empty hmint)]
    simp [not_le.mpr ha]
  rcases v with _ | u <;>
    simp [send_token, pyFloat, pyIntOfJv, hmint, hto, hacct, h1, h2, h3, hfalsy]

theorem ratTrunc_intCast (z : ℤ) : ratTrunc ((z : ℚ)) = z := by
  unfold ratTrunc
  rcases le_or_lt 0 z with h | h
  · rw [if_pos (by exact_mod_cast h), Int.floor_intCast]
  · rw [if_neg (by exact_mod_cast not_le.mpr h), Int.ceil_intCast]

theorem ratTrunc_six : ratTrunc (6 : ℚ) = 6 := by
  have h : (6 : ℚ) = ((6 : ℤ) : ℚ) := by norm_num
  rw [h, ratTrunc_intCast]

theorem uiAmount_three_halves_six : uiAmount (3 / 2) 6 = 1500000 := by
  have h : (3 / 2 : ℚ) * (10 : ℚ) ^ (6 : ℤ) = ((1500000 : ℤ) : ℚ) := by norm_num
  rw [uiAmount, h, ratTrunc_intCast]

theorem kp0_public_key : kp0.public_key = zero32 := by decide

theorem publicKey?_ones32 : publicKey? ones32 = some zero32 := by decide

theorem ratTrunc_neg_one : ratTrunc (-1 : ℚ) = -1 := by
  have h : (-1 : ℚ) = ((-1 : ℤ) : ℚ) := by norm_num
  rw [h, ratTrunc_intCast]

theorem uiAmount_one_neg_one : uiAmount 1 (-1) = 0 := by
  have h : (1 : ℚ) * (10 : ℚ) ^ (-1 : ℤ) = 1 / 10 := by norm_num
  rw [uiAmount, h, ratTrunc, if_pos (by norm_num)]
  norm_num [Int.floor_eq_zero_iff, Set.mem_Ico]

/-- Every `get_balance` response is well-shaped, and 400 occurs exactly
when no public key could be resolved. -/
theorem get_balance_shape (spk : Option Pubkey) (o : Oracle) (qpub : Option String) :
    ∃ r, (get_balance spk o qpub).1 = Except.ok r ∧ apiShape r
      ∧ (r.status = 400 ↔ resolvePub spk qpub = none) := by
  rcases hres : resolvePub spk qpub with _ | p
  · refine ⟨⟨400, Body.errorJson "No public key provided"⟩, ?_,
      Or.inr ⟨Or.inl rfl, _, rfl⟩, by simp [hres]⟩
    simp [get_balance, hres]
  · rcases hpk : publicKey? p with _ | pk
    · refine ⟨⟨500, Body.errorJson "invalid public key input"⟩, ?_,
        Or.inr ⟨Or.inr rfl, _, rfl⟩, by simp [hres]⟩
      simp [get_balance, hres, hpk]
    · rcases hb : o.bal 0 with m | lam
      · refine ⟨⟨500, Body.errorJson m⟩, ?_, Or.inr ⟨Or.inr rfl, _, rfl⟩, by simp [hres]⟩
        simp [get_balance, hres, hpk, hb]
      · refine ⟨⟨200, Body.balanceJson ((lam : ℚ) / 1000000000) lam⟩, ?_,
          Or.inl ⟨rfl, Or.inr (Or.inl ⟨_, _, rfl⟩)⟩, by simp [hres]⟩
        simp [get_balance, hres, hpk, hb]

/-- Every `send_sol` response whose amount field coerces is well-shaped,
and 400 occurs exactly on a validation failure with the signer present. -/
theorem send_sol_shape (kp : Option Keypair) (o : Oracle) (data : SolReq) (a : ℚ)
    (hfa : pyFloat (data.amount_sol.getD (Jv.num 0)) = some a) :
    ∃ r, (send_sol kp o data).1 = Except.ok r ∧ apiShape r
      ∧ (r.status = 400 ↔ kp ≠ none ∧ (strFalsy data.to = true ∨ a ≤ 0)) := by
  cases kp with
  | none =>
    exact ⟨⟨500, Body.errorJson "Server signer not configured"⟩, rfl,
      Or.inr ⟨Or.inr rfl, _, rfl⟩, by simp⟩
  | some signer =>
    by_cases hval : strFalsy data.to = true ∨ a ≤ 0
    · refine ⟨⟨400, Body.errorJson "invalid params"⟩, ?_,
        Or.inr ⟨Or.inl rfl, _, rfl⟩, by simp [hval]⟩
      simp [send_sol, hfa, hval]
    · rcases hpk : publicKey? (data.to.getD "") with _ | tp
      · refine ⟨⟨500, Body.errorJson "invalid public key input"⟩, ?_,
          Or.inr ⟨Or.inr rfl, _, rfl⟩, by simp [hval]⟩
        simp [send_sol, hfa, hval, hpk]
      · rcases htx : o.tx 0 with m | id
        · refine ⟨⟨500, Body.errorJson m⟩, ?_, Or.inr ⟨Or.inr rfl, _, rfl⟩, by simp [hval]⟩
          simp [send_sol, hfa, hval, hpk, htx]
        · refine ⟨⟨200, Body.txidJson id⟩, ?_, Or.inl ⟨rfl, Or.inl ⟨_, rfl⟩⟩, by simp [hval]⟩
          simp [send_sol, hfa, hval, hpk, htx]

/-- Every `send_token` response whose numeric fields coerce is
well-shaped, and 400 occurs exactly on a validation failure with the
signer present. -/
theorem send_token_shape (kp : Option Keypair) (o : Oracle) (data : TokenReq)
    (a : ℚ) (d : ℤ)
    (hfa : pyFloat (data.amount.getD (Jv.num 0)) = some a)
    (hdv : pyIntOfJv (data.decimals.getD (Jv.num 0)) = some d) :
    ∃ r, (send_token kp o data).1 = Except.ok r ∧ apiShape r
      ∧ (r.status = 400 ↔
          kp ≠ none ∧ (strFalsy data.to = true ∨ strFalsy data.mint = true ∨ a ≤ 0)) := by
  cases kp with
  | none =>
    exact ⟨⟨500, Body.errorJson "Server signer not configured"⟩, rfl,
      Or.inr ⟨Or.inr rfl, _, rfl⟩, by simp⟩
  | some signer =>
    by_cases hval : strFalsy data.to = true ∨ strFalsy data.mint = true ∨ a ≤ 0
    · refine ⟨⟨400, Body.errorJson "invalid params"⟩, ?_,
        Or.inr ⟨Or.inl rfl, _, rfl⟩, by simp [hval]⟩
      simp [send_token, hfa, hdv, hval]
    · rcases hm : publicKey? (data.mint.getD "") with _ | mp
      · refine ⟨⟨500, Body.errorJson "invalid public key input"⟩, ?_,
          Or.inr ⟨Or.inr rfl, _, rfl⟩, by simp [hval]⟩
        simp [send_token, hfa, hdv, hval, hm]
      · rcases hto : publicKey? (data.to.getD "") with _ | tp
        · refine ⟨⟨500, Body.errorJson "invalid public key input"⟩, ?_,
            Or.inr ⟨Or.inr rfl, _, rfl⟩, by simp [hval]⟩
          simp [send_token, hfa, hdv, hval, hm, hto]
        · rcases hacct : o.acct 0 with m | v
          · refine ⟨⟨500, Body.errorJson m⟩, ?_, Or.inr ⟨Or.inr rfl, _, rfl⟩,
              by simp [hval]⟩
            simp [send_token, hfa, hdv, hval, hm, hto, hacct]
          · rcases h1 : o.tx 1 with m | id1
            · refine ⟨⟨500, Body.errorJson m⟩, ?_, Or.inr ⟨Or.inr rfl, _, rfl⟩,
                by simp [hval]⟩
              simp [send_token, hfa, hdv, hval, hm, hto, hacct, h1]
            · by_cases hv : v = none
              · rcases h2 : o.tx 2 with m | id2
                · refine ⟨⟨500, Body.errorJson m⟩, ?_, Or.inr ⟨Or.inr rfl, _, rfl⟩,
                    by simp [hval]⟩
                  simp [send_token, hfa, hdv, hval, hm, hto, hacct, h1, hv, h2]
                · rcases h3 : o.tx 3 with m | id3
                  · refine ⟨⟨500, Body.errorJson m⟩, ?_, Or.inr ⟨Or.inr rfl, _, rfl⟩,
                      by simp [hval]⟩
                    simp [send_token, hfa, hdv, hval, hm, hto, hacct, h1, hv, h2, h3]
                  · refine ⟨⟨200, Body.txidJson id3⟩, ?_, Or.inl ⟨rfl, Or.inl ⟨_, rfl⟩⟩,
                      by simp [hval]⟩
                    simp [send_token, hfa, hdv, hval, hm, hto, hacct, h1, hv, h2, h3]
              · rcases h2 : o.tx 2 with m | id2
                · refine ⟨⟨500, Body.errorJson m⟩, ?_, Or.inr ⟨Or.inr rfl, _, rfl⟩,
                    by simp [hval]⟩
                  simp [send_token, hfa, hdv, hval, hm, hto, hacct, h1, hv, h2]
                · refine ⟨⟨200, Body.txidJson id2⟩, ?_, Or.inl ⟨rfl, Or.inl ⟨_, rfl⟩⟩,
                    by simp [hval]⟩
                  simp [send_token, hfa, hdv, hval, hm, hto, hacct, h1, hv, h2]

/-! ### Claims -/

/-- C1: the claim says a `send_token` request whose recipient ATA is
absent causes exactly two network submissions, in the order (create,
then transfer).  Running the embedded handler at the spec's own scenario
(`amount = 1.5`, `decimals = 6`, recipient ATA absent, every submission
accepted) shows the code instead performs three submissions — a token
transfer, then the create-account transaction, then a second token
transfer — so a transfer precedes the create and the count is three.
This matches the source: the `token_client.transfer` call at line 166
already signs and sends a transaction, contradicting the comments at
lines 164 and 173-176 which intend it only to build an instruction and
to submit the create-account transaction first. -/
theorem send_token_missing_ata_submission_trace :
    ((send_token (some kp0) oracleAbsent
        ⟨some ones32, some ones32, some (Jv.num (3 / 2)), some (Jv.num 6)⟩).2.filter
      isSubmission)
    = [NetOp.submitTokenTransfer (zero32 ++ zero32) (zero32 ++ zero32) zero32 1500000,
       NetOp.submitTxn [Instr.createAssociatedTokenAccount zero32 zero32 zero32],
       NetOp.submitTokenTransfer (zero32 ++ zero32) (zero32 ++ zero32) zero32 1500000] := by
  have h := send_token_run kp0 oracleAbsent ones32 ones32 (3 / 2) 6 zero32 zero32
    none (toString 1) (toString 2) (toString 3)
    publicKey?_ones32 publicKey?_ones32 (by norm_num) rfl rfl rfl rfl
  rw [h]
  simp [isSubmission, ratTrunc_six, uiAmount_three_halves_six, kp0_public_key,
    get_associated_token_address, List.filter]

/-- C2: every `send_token` invocation that passes validation and reaches
the transfer step without an exception invokes `token_client.transfer`
twice — once before the conditional create-ATA submission and once after
— so two separate transfer transactions are submitted, and the txid
returned to the caller is the response to the second transfer only. -/
theorem send_token_transfers_twice
    (kp : Keypair) (o : Oracle) («to» mint : String) (a dq : ℚ)
    (tp mp : Pubkey) (v : Option Unit) (id1 id2 id3 : String)
    (hmint : publicKey? mint = some mp) (hto : publicKey? «to» = some tp)
    (ha : 0 < a)
    (hacct : o.acct 0 = Except.ok v)
    (h1 : o.tx 1 = Except.ok id1) (h2 : o.tx 2 = Except.ok id2)
    (h3 : o.tx 3 = Except.ok id3) :
    ((send_token (some kp) o
        ⟨some «to», some mint, some (Jv.num a), some (Jv.num dq)⟩).2.filter
      isTransferSubmission)
      = List.replicate 2
          (NetOp.submitTokenTransfer (get_associated_token_address kp.public_key mp)
            (get_associated_token_address tp mp) kp.public_key (uiAmount a (ratTrunc dq)))
    ∧ (send_token (some kp) o
        ⟨some «to», some mint, some (Jv.num a), some (Jv.num dq)⟩).2
      = [NetOp.getAccountInfo (get_associated_token_address tp mp),
         NetOp.submitTokenTransfer (get_associated_token_address kp.public_key mp)
           (get_associated_token_address tp mp) kp.public_key (uiAmount a (ratTrunc dq))] ++
        (if v = none then
          [NetOp.submitTxn [Instr.createAssociatedTokenAccount kp.public_key tp mp],
           NetOp.submitTokenTransfer (get_associated_token_address kp.public_key mp)
             (get_associated_token_address tp mp) kp.public_key (uiAmount a (ratTrunc dq))]
         else
          [NetOp.submitTokenTransfer (get_associated_token_address kp.public_key mp)
            (get_associated_token_address tp mp) kp.public_key (uiAmount a (ratTrunc dq))])
    ∧ (send_token (some kp) o
        ⟨some «to», some mint, some (Jv.num a), some (Jv.num dq)⟩).1
      = Except.ok ⟨200, Body.txidJson (if v = none then id3 else id2)⟩ := by
  have h := send_token_run kp o «to» mint a dq tp mp v id1 id2 id3
    hmint hto ha hacct h1 h2 h3
  rw [h]
  rcases v with _ | u <;> simp [isTransferSubmission, List.filter, List.replicate]

/-- Witness for C2 at the concrete scenario: recipient ATA absent, both
transfers succeed; two transfer submissions occur and the returned txid
is the second one ("3", the response to the fourth network call). -/
theorem send_token_transfers_twice_witness :
    ((send_token (some kp0) oracleAbsent
        ⟨some ones32, some ones32, some (Jv.num (3 / 2)), some (Jv.num 6)⟩).2.filter
      isTransferSubmission)
      = List.replicate 2
          (NetOp.submitTokenTransfer (zero32 ++ zero32) (zero32 ++ zero32) zero32
            (uiAmount (3 / 2) (ratTrunc 6)))
    ∧ (send_token (some kp0) oracleAbsent
        ⟨some ones32, some ones32, some (Jv.num (3 / 2)), some (Jv.num 6)⟩).1
      = Except.ok ⟨200, Body.txidJson "3"⟩ := by
  have h := send_token_transfers_twice kp0 oracleAbsent ones32 ones32 (3 / 2) 6
    zero32 zero32 none (toString 1) (toString 2) (toString 3)
    publicKey?_ones32 publicKey?_ones32 (by norm_num) rfl rfl rfl rfl
  refine ⟨?_, ?_⟩
  · rw [h.1]
    simp [kp0_public_key, get_associated_token_address]
  · rw [h.2.2]
    rfl

/-- C3 counterexample: the claim requires syntactically invalid addresses
and negative decimals to be rejected with an InvalidParams (400) error
before any network call.  First input: recipient and mint `"x"` (valid
base58, wrong length) passes the code's validation and fails only inside
the `try` with status 500, not 400.  Second input: valid addresses with
`decimals = -1` is not rejected at all — the handler performs three
network calls and returns 200. -/
theorem send_token_validation_counterexample :
    send_token (some kp0) oracleAbsent
        ⟨some "x", some "x", some (Jv.num 1), some (Jv.num 0)⟩
      = (Except.ok ⟨500, Body.errorJson "invalid public key input"⟩, [])
  ∧ (send_token (some kp0) oraclePresent
        ⟨some ones32, some ones32, some (Jv.num 1), some (Jv.num (-1))⟩).2
      = [NetOp.getAccountInfo (zero32 ++ zero32),
         NetOp.submitTokenTransfer (zero32 ++ zero32) (zero32 ++ zero32) zero32 0,
         NetOp.submitTokenTransfer (zero32 ++ zero32) (zero32 ++ zero32) zero32 0]
  ∧ (send_token (some kp0) oraclePresent
        ⟨some ones32, some ones32, some (Jv.num 1), some (Jv.num (-1))⟩).1
      = Except.ok ⟨200, Body.txidJson "2"⟩ := by
  have hrun := send_token_run kp0 oraclePresent ones32 ones32 1 (-1) zero32 zero32
    (some ()) (toString 1) (toString 2) (toString 3)
    publicKey?_ones32 publicKey?_ones32 (by norm_num) rfl rfl rfl rfl
  refine ⟨?_, ?_, ?_⟩
  · have hx : publicKey? "x" = none := by decide
    norm_num [send_token, pyFloat, pyIntOfJv, strFalsy, hx]
    decide
  · rw [hrun]
    simp [ratTrunc_neg_one, uiAmount_one_neg_one, kp0_public_key,
      get_associated_token_address]
  · rw [hrun]
    rfl

/-- C3 (amended): `send_token` validation checks only that the recipient
and mint fields are present and nonempty and that the amount is
positive, failing with a 400 invalid-params error before any network
call; a syntactically malformed address is detected only inside the
guarded region and fails with status 500 (still before any network
call); decimals is not validated at all. -/
theorem send_token_validation
    (kp : Keypair) (o : Oracle) (data : TokenReq) (a : ℚ) (dv : ℤ)
    (hfa : pyFloat (data.amount.getD (Jv.num 0)) = some a)
    (hdv : pyIntOfJv (data.decimals.getD (Jv.num 0)) = some dv) :
    ((strFalsy data.to = true ∨ strFalsy data.mint = true ∨ a ≤ 0) →
        send_token (some kp) o data
          = (Except.ok ⟨400, Body.errorJson "invalid params"⟩, []))
  ∧ (¬ (strFalsy data.to = true ∨ strFalsy data.mint = true ∨ a ≤ 0) →
      publicKey? (data.mint.getD "") = none →
        send_token (some kp) o data
          = (Except.ok ⟨500, Body.errorJson "invalid public key input"⟩, []))
  ∧ (∀ mp, ¬ (strFalsy data.to = true ∨ strFalsy data.mint = true ∨ a ≤ 0) →
      publicKey? (data.mint.getD "") = some mp →
      publicKey? (data.to.getD "") = none →
        send_token (some kp) o data
          = (Except.ok ⟨500, Body.errorJson "invalid public key input"⟩, [])) := by
  refine ⟨fun hbad => ?_, fun hok hm => ?_, fun mp hok hm hto => ?_⟩ <;>
    simp [send_token, hfa, hdv, *]

/-- Witness for C3 (amended): an empty recipient field is rejected with
400 and an empty network trace. -/
theorem send_token_validation_witness :
    send_token (some kp0) oracleAbsent
        ⟨some "", some ones32, some (Jv.num 1), some (Jv.num 6)⟩
      = (Except.ok ⟨400, Body.errorJson "invalid params"⟩, []) :=
  (send_token_validation kp0 oracleAbsent
      ⟨some "", some ones32, some (Jv.num 1), some (Jv.num 6)⟩ 1 (ratTrunc 6)
      rfl rfl).1 (Or.inl (by decide))

set_option linter.unusedVariables false in
/-- C4: for `a > 0` and `d ≥ 0` the smallest-unit conversions of
`send_token` and `send_sol` equal `floor(a * 10^d)` (with `d` fixed to 9
for `send_sol`), and a zero or negative amount is rejected by both
endpoints with an invalid-params error before any network call. -/
theorem smallest_unit_conversion
    (a : ℚ) (d : ℤ) (ha : 0 < a) (hd : 0 ≤ d)
    (kp kp2 : Keypair) (o o2 : Oracle) (a' : ℚ) (ha' : a' ≤ 0)
    («to» mint : Option String) (dec : Option Jv) (dv : ℤ)
    (hdec : pyIntOfJv (dec.getD (Jv.num 0)) = some dv) :
    uiAmount a d = ⌊a * (10 : ℚ) ^ d⌋
  ∧ lamportsOfAmount a = ⌊a * 1000000000⌋
  ∧ send_token (some kp) o ⟨«to», mint, some (Jv.num a'), dec⟩
      = (Except.ok ⟨400, Body.errorJson "invalid params"⟩, [])
  ∧ send_sol (some kp2) o2 ⟨«to», some (Jv.num a')⟩
      = (Except.ok ⟨400, Body.errorJson "invalid params"⟩, []) := by
  refine ⟨uiAmount_eq_floor a d (le_of_lt ha), ?_, ?_, ?_⟩
  · exact ratTrunc_eq_floor _ (mul_nonneg (le_of_lt ha) (by norm_num))
  · simp [send_token, pyFloat, hdec, ha']
  · simp [send_sol, pyFloat, ha']

/-- Witness for C4 at the spec's scenario `a = 1.5`, `d = 6`, and the
rejected amount `a = 0`. -/
theorem smallest_unit_conversion_witness :
    uiAmount (3 / 2) 6 = ⌊(3 / 2 : ℚ) * (10 : ℚ) ^ (6 : ℤ)⌋
  ∧ lamportsOfAmount (3 / 2) = ⌊(3 / 2 : ℚ) * 1000000000⌋
  ∧ send_token (some kp0) oracleAbsent
        ⟨some ones32, some ones32, some (Jv.num 0), some (Jv.num 6)⟩
      = (Except.ok ⟨400, Body.errorJson "invalid params"⟩, [])
  ∧ send_sol (some kp0) oracleAbsent ⟨some ones32, some (Jv.num 0)⟩
      = (Except.ok ⟨400, Body.errorJson "invalid params"⟩, []) :=
  smallest_unit_conversion (3 / 2) 6 (by norm_num) (by norm_num) kp0 kp0
    oracleAbsent oracleAbsent 0 (by norm_num) (some ones32) (some ones32)
    (some (Jv.num 6)) (ratTrunc 6) rfl

/-- C5 counterexample: the claim says every error response body is
exactly `{error: msg}`.  A `send_sol` request whose `amount_sol` field is
JSON `null` makes the `float(...)` coercion — which sits outside the
handler's `try` block — raise past the handler, so the framework
produces its default 500 error page, whose body is not of the
`{error: msg}` form. -/
theorem error_body_counterexample :
    flaskRun (send_sol (some kp0) oracleAbsent ⟨some ones32, some Jv.null⟩)
      = (⟨500, Body.htmlErrorPage⟩, [])
  ∧ isErrorJsonBody
      (flaskRun (send_sol (some kp0) oracleAbsent ⟨some ones32, some Jv.null⟩)).1.body
      = false :=
  ⟨rfl, rfl⟩

/-- C5 (amended): for every request whose numeric fields coerce (are
absent or numbers), each endpoint's own response is 200 with a success
body, 400 with body `{error: msg}` exactly on a validation failure, or
500 with body `{error: msg}` for configuration, address and remote
failures; a request whose amount or decimals field fails numeric
coercion instead raises past the handler and yields the framework's
default 500 page, whose body is not `{error: msg}`. -/
theorem endpoint_response_shape
    (spk : Option Pubkey) (kp kp2 : Option Keypair) (o o2 o3 : Oracle)
    (qpub : Option String) (sreq : SolReq) (treq : TokenReq) (u : String)
    (a a2 : ℚ) (d2 : ℤ)
    (hs : pyFloat (sreq.amount_sol.getD (Jv.num 0)) = some a)
    (ht : pyFloat (treq.amount.getD (Jv.num 0)) = some a2)
    (htd : pyIntOfJv (treq.decimals.getD (Jv.num 0)) = some d2) :
    (∃ r, (get_balance spk o qpub).1 = Except.ok r ∧ apiShape r
        ∧ (r.status = 400 ↔ resolvePub spk qpub = none))
  ∧ (∃ r, (send_sol kp o2 sreq).1 = Except.ok r ∧ apiShape r
        ∧ (r.status = 400 ↔ kp ≠ none ∧ (strFalsy sreq.to = true ∨ a ≤ 0)))
  ∧ (∃ r, (send_token kp2 o3 treq).1 = Except.ok r ∧ apiShape r
        ∧ (r.status = 400 ↔
            kp2 ≠ none ∧ (strFalsy treq.to = true ∨ strFalsy treq.mint = true ∨ a2 ≤ 0)))
  ∧ ((health u).status = 200 ∧ apiShape (health u))
  ∧ (∀ sreq2 : SolReq, pyFloat (sreq2.amount_sol.getD (Jv.num 0)) = none →
      ∀ kp3 : Keypair, ∀ o4 : Oracle,
        flaskRun (send_sol (some kp3) o4 sreq2) = (⟨500, Body.htmlErrorPage⟩, [])) :=
  ⟨get_balance_shape spk o qpub,
   send_sol_shape kp o2 sreq a hs,
   send_token_shape kp2 o3 treq a2 d2 ht htd,
   ⟨rfl, Or.inl ⟨rfl, Or.inr (Or.inr ⟨u, rfl⟩)⟩⟩,
   fun sreq2 hnull kp3 o4 => by simp [flaskRun, flaskDispatch, send_sol, hnull]⟩

/-- Witness for C5 (amended) at concrete requests: a successful token
send (200 with a txid body), a balance query with no resolvable key (400
with an error body), and a null-amount request mapped to the framework's
default page. -/
theorem endpoint_response_shape_witness :
    (∃ r, (get_balance none oracleBal none).1 = Except.ok r ∧ apiShape r
        ∧ (r.status = 400 ↔ resolvePub none none = none))
  ∧ (∃ r, (send_token (some kp0) oracleAbsent
        ⟨some ones32, some ones32, some (Jv.num 1), some (Jv.num 6)⟩).1
          = Except.ok r ∧ apiShape r
        ∧ (r.status = 400 ↔ (some kp0 : Option Keypair) ≠ none ∧
            (strFalsy (some ones32) = true ∨ strFalsy (some ones32) = true
              ∨ (1 : ℚ) ≤ 0)))
  ∧ flaskRun (send_sol (some kp0) oracleAbsent ⟨some ones32, some Jv.null⟩)
      = (⟨500, Body.htmlErrorPage⟩, []) := by
  have h := endpoint_response_shape none (some kp0) (some kp0) oracleBal oracleAbsent
    oracleAbsent none ⟨some ones32, some (Jv.num 1)⟩
    ⟨some ones32, some ones32, some (Jv.num 1), some (Jv.num 6)⟩ "rpc" 1 1 (ratTrunc 6)
    rfl rfl rfl
  exact ⟨h.1, h.2.2.1, h.2.2.2.2 ⟨some ones32, some Jv.null⟩ rfl kp0 oracleAbsent⟩

/-- C6: with no signer configured, both state-changing endpoints return
an error response and attempt no network call at all. -/
theorem no_signer_no_network (o o2 : Oracle) (sreq : SolReq) (treq : TokenReq) :
    send_sol none o sreq
      = (Except.ok ⟨500, Body.errorJson "Server signer not configured"⟩, [])
  ∧ send_token none o2 treq
      = (Except.ok ⟨500, Body.errorJson "Server signer not configured"⟩, []) :=
  ⟨rfl, rfl⟩

/-- C7: a malformed key configuration string — one that is not a
bracketed array and fails base58 decoding, or a bracketed byte-array
literal of the wrong length — makes the key loader return `none`; the
embedded loader is a total function, so no failure propagates past it. -/
theorem load_keypair_malformed_returns_none
    (s : String)
    (h : (startsWithBracket s = false ∧ b58decode s = none)
       ∨ (startsWithBracket s = true ∧
           ∃ arr sk, parseIntArray s = some arr ∧ pyBytes arr = some sk ∧ sk.length ≠ 64)) :
    load_keypair_from_env (some s) = none := by
  rcases h with ⟨hb, hdec⟩ | ⟨hb, arr, sk, harr, hsk, hlen⟩
  · simp [load_keypair_from_env, hb, hdec]
  · simp [load_keypair_from_env, hb, harr, hsk, Keypair.from_secret_key, hlen]

/-- Witness for C7: a three-byte array literal is wrong-length and the
loader yields `none`. -/
theorem load_keypair_malformed_returns_none_witness :
    load_keypair_from_env (some "[1,2,3]") = none :=
  load_keypair_malformed_returns_none "[1,2,3]"
    (Or.inr ⟨by decide, [1, 2, 3], [1, 2, 3], by decide, by decide, by decide⟩)

/-- C8: a present key string whose trimmed form begins with `[` is parsed
as a byte-array literal and, otherwise, is base58-decoded; in either case
the signing identity is constructed from the resulting bytes. -/
theorem load_keypair_branching (s : String) :
    (∀ arr, startsWithBracket s = true → parseIntArray s = some arr →
        load_keypair_from_env (some s) = (pyBytes arr).bind Keypair.from_secret_key)
  ∧ (startsWithBracket s = false → ∀ sk, b58decode s = some sk →
        load_keypair_from_env (some s) = Keypair.from_secret_key sk) := by
  constructor
  · intro arr hb harr
    cases hpb : pyBytes arr <;> simp [load_keypair_from_env, hb, harr, hpb]
  · intro hb sk hdec
    simp [load_keypair_from_env, hb, hdec]

set_option maxRecDepth 8000 in
/-- Witness for C8: both branches at concrete strings; the base58 branch
constructs the identity from the 64 decoded zero bytes. -/
theorem load_keypair_branching_witness :
    load_keypair_from_env (some "[5,6]") = (pyBytes [5, 6]).bind Keypair.from_secret_key
  ∧ load_keypair_from_env (some ones64)
      = Keypair.from_secret_key (List.replicate 64 0) :=
  ⟨(load_keypair_branching "[5,6]").1 [5, 6] (by decide) (by decide),
   (load_keypair_branching ones64).2 (by decide) (List.replicate 64 0) (by decide)⟩

/-- C9: a successful balance query returns status 200 with both the
lamport balance and the display-unit balance `lamports / 10^9`, after a
single `get_balance` network call. -/
theorem balance_success
    (SIGNER_PUBKEY : Option Pubkey) (o : Oracle) (p : String) (pk : Pubkey)
    (lamports : ℤ)
    (hp : p ≠ "") (hpk : publicKey? p = some pk)
    (hbal : o.bal 0 = Except.ok lamports) :
    get_balance SIGNER_PUBKEY o (some p)
      = (Except.ok ⟨200, Body.balanceJson ((lamports : ℚ) / 1000000000) lamports⟩,
          [NetOp.getBalance pk]) := by
  have hb : (p == "") = false := beq_eq_false_iff_ne.mpr hp
  simp [get_balance, resolvePub, hb, hpk, hbal]

/-- Witness for C9 at the spec's scenario: lamport balance 2500000000
yields `balance_sol = 5/2` (that is, 2.5) and `lamports = 2500000000`. -/
theorem balance_success_witness :
    get_balance none oracleBal (some ones32)
      = (Except.ok ⟨200, Body.balanceJson (5 / 2) 2500000000⟩,
          [NetOp.getBalance zero32]) := by
  have h := balance_success none oracleBal ones32 zero32 2500000000 (by decide)
    publicKey?_ones32 rfl
  have hq : (((2500000000 : ℤ) : ℚ)) / 1000000000 = 5 / 2 := by norm_num
  rw [h, hq]

/-- C10: a balance request without a `pub` query parameter, while no
signer public key is configured, yields 400 with body
`{error: No public key provided}` and makes no network call. -/
theorem balance_no_pub_no_signer (o : Oracle) :
    get_balance none o none
      = (Except.ok ⟨400, Body.errorJson "No public key provided"⟩, []) := rfl

end Milliapp
